import Mathlib

/-!
Shallow embedding of the Topic & Skill CRUD service (`src/app.py`).

The service is a Flask application over two SQLAlchemy-backed tables,
`topics(id, name, description, parent_topic_id)` and
`skills(id, name, topic_id, difficulty)`.  We model the persisted state as
two lists of rows and each HTTP handler as a pure function from state (and
the request payload) to a response together with the successor state.

Modelling conventions, matching the Python/Flask/SQLAlchemy semantics:

* A JSON body field is absent, JSON `null`, or a value.  A field of the
  payload record therefore has type `Option (Option α)`: `none` is an
  absent key, `some none` an explicit `null`, `some (some v)` a value.
* `request.get_json(silent=True)` yields `None` for a missing or invalid
  body; the handlers then do `... or {}`.  We model the parsed body as
  `Option Payload` and apply the same defaulting.
* Python `d.get(k)` returns `None` both for an absent key and for a stored
  `null`; `d.get(k, default)` returns the default only for an absent key.
* Python truthiness: `None`, the empty string and the integer `0` are
  falsy; `x or y` returns `y` when `x` is falsy.
* `str.strip()` is modelled by `pyStrip`: dropping leading and trailing
  whitespace characters from the character list.
* `ORDER BY name ASC` is modelled by sorting with a lexicographic
  codepoint order on `name` (the backing store's collation is abstracted
  as this total order).
* `Model.query.get(pk)` returns the unique row with that primary key or
  `None`; called with a `None` key (a fully null primary-key identity) it
  loads nothing and returns `None`.  Primary keys are unique, so updating
  or deleting the fetched row is modelled as a map/filter over the rows
  with that id.
* Route ids (`/<id>`) are coerced to the integer primary-key type by the
  database layer; we model ids as `Nat` throughout.
-/

/-- A row of the `topics` table: `id` primary key, `name`, nullable
`description`, nullable self-reference `parent_topic_id`. -/
structure Topic where
  id : Nat
  name : String
  description : Option String
  parent_topic_id : Option Nat
deriving Repr, DecidableEq

/-- A row of the `skills` table: `id` primary key, `name`, reference
`topic_id` (nullable at the column level), `difficulty`. -/
structure Skill where
  id : Nat
  name : String
  topic_id : Option Nat
  difficulty : String
deriving Repr, DecidableEq

/-- The persisted state: the two tables. -/
structure AppState where
  topics : List Topic
  skills : List Skill
deriving Repr, DecidableEq

/-- JSON body of a topic request: each field absent (`none`),
`null` (`some none`) or a value (`some (some v)`). -/
structure TopicPayload where
  name : Option (Option String)
  description : Option (Option String)
  parentTopicID : Option (Option Nat)
deriving Repr, DecidableEq

/-- JSON body of a skill request. -/
structure SkillPayload where
  name : Option (Option String)
  topicID : Option (Option Nat)
  difficulty : Option (Option String)
deriving Repr, DecidableEq

/-- The empty JSON object `{}`. -/
def emptyTopicPayload : TopicPayload := ⟨none, none, none⟩

/-- The empty JSON object `{}`. -/
def emptySkillPayload : SkillPayload := ⟨none, none, none⟩

/-- Python `payload.get(k)`: an absent key and a stored JSON `null` both
come back as `None`. -/
def pyGet (f : Option (Option α)) : Option α := f.getD none

/-- Python `payload.get(k, default)`: the default is used only when the key
is absent; an explicit `null` is returned as `None`. -/
def pyGetD (f : Option (Option α)) (d : Option α) : Option α := f.getD d

/-- Python `x or d` for an optional string `x`: `None` and `""` are falsy. -/
def pyOrStr (v : Option String) (d : String) : String :=
  match v with
  | none => d
  | some s => if s.isEmpty then d else s

/-- Python truthiness of an optional integer: `None` and `0` are falsy. -/
def natTruthy (v : Option Nat) : Bool :=
  match v with
  | none => false
  | some n => n != 0

/-- Python `s.strip()`: remove leading and trailing whitespace. -/
def pyStrip (s : String) : String :=
  ⟨((s.data.dropWhile Char.isWhitespace).reverse.dropWhile Char.isWhitespace).reverse⟩

/-- Lexicographic codepoint comparison of character lists (the total order
the store's `ORDER BY ... ASC` uses, with the collation abstracted as
codepoint order). -/
def strLeAux : List Char → List Char → Bool
  | [], _ => true
  | _ :: _, [] => false
  | a :: as, b :: bs =>
    if a.toNat < b.toNat then true
    else if b.toNat < a.toNat then false
    else strLeAux as bs

/-- Lexicographic codepoint comparison of strings. -/
def strLe (a b : String) : Bool := strLeAux a.data b.data

/-- Ordering of topics by `name` ascending. -/
def topicNameLe (a b : Topic) : Prop := strLe a.name b.name = true

/-- Ordering of skills by `name` ascending. -/
def skillNameLe (a b : Skill) : Prop := strLe a.name b.name = true

instance : DecidableRel topicNameLe := fun _ _ => instDecidableEqBool _ _

instance : DecidableRel skillNameLe := fun _ _ => instDecidableEqBool _ _

/-- `Topic.query.get(i)`: the row with primary key `i`, or nothing; a
`None` key loads nothing. -/
def findTopic (st : AppState) (i : Option Nat) : Option Topic :=
  match i with
  | none => none
  | some i => st.topics.find? (fun t => t.id == i)

/-- `Skill.query.get(i)`. -/
def findSkill (st : AppState) (i : Option Nat) : Option Skill :=
  match i with
  | none => none
  | some i => st.skills.find? (fun s => s.id == i)

/-- An HTTP response: either a success with status code and entity body, or
an error with status code and the `error` message string. -/
inductive RResult (α : Type) where
  | ok (code : Nat) (val : α)
  | err (code : Nat) (msg : String)
deriving Repr, DecidableEq

/-- Whether a response is an error response. -/
def RResult.isErr : RResult α → Bool
  | .err _ _ => true
  | .ok _ _ => false

/-- `GET /topics` (`get_topics`): all topics ordered by `name` ascending. -/
def get_topics (st : AppState) : List Topic :=
  List.insertionSort topicNameLe st.topics

/-- `GET /topics/<id>` (`get_topic_by_id`): the topic, or 404. -/
def get_topic_by_id (st : AppState) (id : Nat) : RResult Topic :=
  match findTopic st (some id) with
  | none => .err 404 "Topic not found"
  | some t => .ok 200 t

/-- `POST /topics` (`create_topic`).  `body = none` models a missing or
invalid JSON body (`request.get_json(silent=True)` returned `None`).
`newId` is the fresh primary key the store assigns on insert. -/
def create_topic (st : AppState) (body : Option TopicPayload) (newId : Nat) :
    RResult Topic × AppState :=
  let payload := body.getD emptyTopicPayload
  let name := pyStrip (pyOrStr (pyGet payload.name) "")
  let description := pyGet payload.description
  let parent_id := pyGet payload.parentTopicID
  if name.isEmpty then
    (.err 422 "Field 'name' is required.", st)
  else if natTruthy parent_id && (findTopic st parent_id).isNone then
    (.err 422 "parentTopicID not found", st)
  else
    let topic : Topic :=
      { id := newId, name := name, description := description,
        parent_topic_id := parent_id }
    (.ok 201 topic, { st with topics := st.topics ++ [topic] })

/-- `PUT /topics/<id>` (`update_topic`).  Missing `name` falls back to the
stored name (then trimmed); `description` and `parentTopicID` use
`payload.get(k, stored)`, so an explicit `null` overwrites while an absent
key keeps the stored value.  The parent-existence check runs only when the
resolved `parent_id` is truthy. -/
def update_topic (st : AppState) (id : Nat) (body : Option TopicPayload) :
    RResult Topic × AppState :=
  match st.topics.find? (fun t => t.id == id) with
  | none => (.err 404 "Topic not found", st)
  | some topic =>
    let payload := body.getD emptyTopicPayload
    let name := pyStrip (pyOrStr (pyGet payload.name) topic.name)
    let description := pyGetD payload.description topic.description
    let parent_id := pyGetD payload.parentTopicID topic.parent_topic_id
    if natTruthy parent_id && (findTopic st parent_id).isNone then
      (.err 422 "parentTopicID not found", st)
    else
      let topic' : Topic :=
        { topic with name := name, description := description,
                     parent_topic_id := parent_id }
      (.ok 200 topic',
       { st with topics := st.topics.map (fun t => if t.id == id then topic' else t) })

/-- `DELETE /topics/<id>` (`delete_topic`): 404 when absent; both
dependency queries (`has_skills`, `has_topics`) are evaluated before either
conflict test, and the skill conflict is reported first. -/
def delete_topic (st : AppState) (id : Nat) : RResult Unit × AppState :=
  match st.topics.find? (fun t => t.id == id) with
  | none => (.err 404 "Topic not found", st)
  | some _ =>
    let has_skills := st.skills.any (fun s => s.topic_id == some id)
    let has_topics := st.topics.any (fun t => t.parent_topic_id == some id)
    if has_skills then
      (.err 409 "The topic has dependent skills, cannot delete the topic", st)
    else if has_topics then
      (.err 409 "The topic has dependent topics, cannot delete the topic", st)
    else
      (.ok 204 (), { st with topics := st.topics.filter (fun t => t.id != id) })

/-- `GET /skills` (`get_skills`): all skills ordered by `name` ascending. -/
def get_skills (st : AppState) : List Skill :=
  List.insertionSort skillNameLe st.skills

/-- `GET /skills/<id>` (`get_skill_by_id`): the skill, or 404. -/
def get_skill_by_id (st : AppState) (id : Nat) : RResult Skill :=
  match findSkill st (some id) with
  | none => .err 404 "Skill not found"
  | some s => .ok 200 s

/-- `POST /skills` (`create_skill`): name required (after trim), `topicID`
required truthy, referenced topic must exist; `difficulty` is
`(payload.get("difficulty") or "unknown").strip()`. -/
def create_skill (st : AppState) (body : Option SkillPayload) (newId : Nat) :
    RResult Skill × AppState :=
  let payload := body.getD emptySkillPayload
  let name := pyStrip (pyOrStr (pyGet payload.name) "")
  let topic_id := pyGet payload.topicID
  let difficulty := pyStrip (pyOrStr (pyGet payload.difficulty) "unknown")
  if name.isEmpty then
    (.err 422 "Field 'name' is required.", st)
  else if !natTruthy topic_id then
    (.err 422 "Field 'topicID' is required.", st)
  else if (findTopic st topic_id).isNone then
    (.err 422 "topicID not found", st)
  else
    let skill : Skill :=
      { id := newId, name := name, topic_id := topic_id, difficulty := difficulty }
    (.ok 201 skill, { st with skills := st.skills ++ [skill] })

/-- `PUT /skills/<id>` (`update_skill`).  `topicID` uses
`payload.get("topicID", skill.topic_id)`: absent falls back to the stored
value, an explicit `null` stays `None`.  The resolved `topic_id` is always
looked up (`Topic.query.get`), and a failed lookup — including the `None`
key — answers 422 `topicID not found`. -/
def update_skill (st : AppState) (id : Nat) (body : Option SkillPayload) :
    RResult Skill × AppState :=
  match st.skills.find? (fun s => s.id == id) with
  | none => (.err 404 "Skill not found", st)
  | some skill =>
    let payload := body.getD emptySkillPayload
    let name := pyStrip (pyOrStr (pyGet payload.name) skill.name)
    let topic_id := pyGetD payload.topicID skill.topic_id
    let difficulty := pyStrip (pyOrStr (pyGet payload.difficulty) skill.difficulty)
    if (findTopic st topic_id).isNone then
      (.err 422 "topicID not found", st)
    else
      let skill' : Skill :=
        { skill with name := name, topic_id := topic_id, difficulty := difficulty }
      (.ok 200 skill',
       { st with skills := st.skills.map (fun s => if s.id == id then skill' else s) })

/-- `DELETE /skills/<id>` (`delete_skill`): 404 when absent, otherwise
unconditional delete. -/
def delete_skill (st : AppState) (id : Nat) : RResult Unit × AppState :=
  match st.skills.find? (fun s => s.id == id) with
  | none => (.err 404 "Skill not found", st)
  | some _ =>
    (.ok 204 (), { st with skills := st.skills.filter (fun s => s.id != id) })

example :
    (create_topic ⟨[], []⟩ (some ⟨some (some " Algorithms "), none, none⟩) 1).2.topics =
      [⟨1, "Algorithms", none, none⟩] := by decide

example :
    (create_skill ⟨[⟨1, "T", none, none⟩], []⟩
      (some ⟨some (some "Sorting"), some (some 1), none⟩) 1).1 =
      .ok 201 ⟨1, "Sorting", some 1, "unknown"⟩ := by decide

example :
    get_topics ⟨[⟨1, "b", none, none⟩, ⟨2, "a", none, none⟩], []⟩ =
      [⟨2, "a", none, none⟩, ⟨1, "b", none, none⟩] := by decide

/-! ## Helper lemmas -/

theorem strLeAux_total : ∀ as bs : List Char, strLeAux as bs = true ∨ strLeAux bs as = true
  | [], bs => by left; cases bs <;> rfl
  | _ :: _, [] => by right; rfl
  | a :: as, b :: bs => by
    simp only [strLeAux]
    rcases Nat.lt_trichotomy a.toNat b.toNat with h | h | h
    · left; simp [h]
    · have h1 : ¬ a.toNat < b.toNat := by omega
      have h2 : ¬ b.toNat < a.toNat := by omega
      rcases strLeAux_total as bs with hh | hh
      · left; simp [h1, h2, hh]
      · right; simp [h1, h2, hh]
    · right; simp [h, Nat.lt_asymm h]

theorem strLeAux_trans :
    ∀ as bs cs : List Char,
      strLeAux as bs = true → strLeAux bs cs = true → strLeAux as cs = true
  | [], _, cs, _, _ => by cases cs <;> rfl
  | _ :: _, [], _, hab, _ => by simp [strLeAux] at hab
  | _ :: _, _ :: _, [], _, hbc => by simp [strLeAux] at hbc
  | a :: as, b :: bs, c :: cs, hab, hbc => by
    simp only [strLeAux] at hab hbc ⊢
    by_cases h1 : a.toNat < b.toNat <;> by_cases h2 : b.toNat < c.toNat
    · simp [Nat.lt_trans h1 h2]
    · rw [if_neg h2] at hbc
      by_cases h3 : c.toNat < b.toNat
      · rw [if_pos h3] at hbc; simp at hbc
      · simp [show a.toNat < c.toNat by omega]
    · rw [if_neg h1] at hab
      by_cases h3 : b.toNat < a.toNat
      · rw [if_pos h3] at hab; simp at hab
      · simp [show a.toNat < c.toNat by omega]
    · rw [if_neg h1] at hab
      rw [if_neg h2] at hbc
      by_cases h3 : b.toNat < a.toNat
      · rw [if_pos h3] at hab; simp at hab
      rw [if_neg h3] at hab
      by_cases h4 : c.toNat < b.toNat
      · rw [if_pos h4] at hbc; simp at hbc
      rw [if_neg h4] at hbc
      rw [if_neg (show ¬ a.toNat < c.toNat by omega),
        if_neg (show ¬ c.toNat < a.toNat by omega)]
      exact strLeAux_trans as bs cs hab hbc

/-- Replacing (in place) the row with key `i` by a row `x` that still has
key `i` makes the lookup of `i` return `x`, provided a row with key `i` was
there before. -/
theorem find?_map_update {α : Type} (key : α → Nat) (i : Nat) (x : α) :
    ∀ l : List α, ((l.find? (fun a => key a == i)).isSome = true) → key x = i →
      (l.map (fun a => if key a == i then x else a)).find? (fun a => key a == i) = some x
  | [], h, _ => by simp at h
  | a :: l, h, hx => by
    by_cases hk : key a == i
    · simp [List.find?, hk, hx]
    · have h' : ((l.find? (fun a => key a == i)).isSome = true) := by
        simpa [List.find?, hk] using h
      simpa [List.find?, hk] using find?_map_update key i x l h' hx

/-! ## Claims -/

/-- C10: a `POST /topics` whose body is missing or not valid JSON is
treated as the empty payload and answered with 422
`Field 'name' is required.`; the state is unchanged, so no row is
written. -/
theorem C10_create_topic_invalid_body (st : AppState) (newId : Nat) :
    create_topic st none newId = (.err 422 "Field 'name' is required.", st) ∧
    create_topic st none newId = create_topic st (some emptyTopicPayload) newId :=
  ⟨rfl, rfl⟩

/-- C5: no partial writes — whenever one of the mutating handlers answers
an error response, the persisted state after the request is exactly the
state before it.  (The `GET` handlers take no successor state at all.) -/
theorem C5_no_partial_writes (st : AppState) (tb : Option TopicPayload)
    (sb : Option SkillPayload) (id newId : Nat) :
    ((create_topic st tb newId).1.isErr = true → (create_topic st tb newId).2 = st) ∧
    ((update_topic st id tb).1.isErr = true → (update_topic st id tb).2 = st) ∧
    ((delete_topic st id).1.isErr = true → (delete_topic st id).2 = st) ∧
    ((create_skill st sb newId).1.isErr = true → (create_skill st sb newId).2 = st) ∧
    ((update_skill st id sb).1.isErr = true → (update_skill st id sb).2 = st) ∧
    ((delete_skill st id).1.isErr = true → (delete_skill st id).2 = st) := by
  refine ⟨?_, ?_, ?_, ?_, ?_, ?_⟩ <;>
    · simp only [create_topic, update_topic, delete_topic, create_skill, update_skill,
        delete_skill]
      repeat' split
      all_goals intro h
      all_goals first | rfl | simp [RResult.isErr] at h

/-- C5 witness: at the empty state, an empty topic body, an empty skill
body and id `1`, every handler errs and the state is preserved. -/
theorem C5_no_partial_writes_witness :
    (create_topic ⟨[], []⟩ (some emptyTopicPayload) 1).2 = ⟨[], []⟩ ∧
    (update_topic ⟨[], []⟩ 1 (some emptyTopicPayload)).2 = ⟨[], []⟩ ∧
    (delete_topic ⟨[], []⟩ 1).2 = ⟨[], []⟩ ∧
    (create_skill ⟨[], []⟩ (some emptySkillPayload) 1).2 = ⟨[], []⟩ ∧
    (update_skill ⟨[], []⟩ 1 (some emptySkillPayload)).2 = ⟨[], []⟩ ∧
    (delete_skill ⟨[], []⟩ 1).2 = ⟨[], []⟩ := by
  obtain ⟨h1, h2, h3, h4, h5, h6⟩ :=
    C5_no_partial_writes ⟨[], []⟩ (some emptyTopicPayload) (some emptySkillPayload) 1 1
  exact ⟨h1 (by decide), h2 (by decide), h3 (by decide), h4 (by decide),
    h5 (by decide), h6 (by decide)⟩

/-- C2: `DELETE /topics/<id>` answers 404 when the id is absent; 409 with
the skill-dependency message when some skill references the id (taking
precedence over the topic-dependency case); 409 with the topic-dependency
message when no skill but some topic references it; otherwise it removes
the row and answers 204. -/
theorem C2_delete_topic_spec (st : AppState) (id : Nat) :
    ((¬ ∃ t ∈ st.topics, t.id = id) →
      delete_topic st id = (.err 404 "Topic not found", st)) ∧
    ((∃ t ∈ st.topics, t.id = id) → (∃ s ∈ st.skills, s.topic_id = some id) →
      delete_topic st id =
        (.err 409 "The topic has dependent skills, cannot delete the topic", st)) ∧
    ((∃ t ∈ st.topics, t.id = id) → (¬ ∃ s ∈ st.skills, s.topic_id = some id) →
      (∃ t ∈ st.topics, t.parent_topic_id = some id) →
      delete_topic st id =
        (.err 409 "The topic has dependent topics, cannot delete the topic", st)) ∧
    ((∃ t ∈ st.topics, t.id = id) → (¬ ∃ s ∈ st.skills, s.topic_id = some id) →
      (¬ ∃ t ∈ st.topics, t.parent_topic_id = some id) →
      delete_topic st id =
        (.ok 204 (), { st with topics := st.topics.filter (fun t => t.id != id) })) := by
  refine ⟨?_, ?_, ?_, ?_⟩
  · intro hno
    have hf : st.topics.find? (fun t => t.id == id) = none := by
      rw [List.find?_eq_none]
      intro t ht
      simp only [beq_iff_eq]
      exact fun h => hno ⟨t, ht, h⟩
    simp [delete_topic, hf]
  · intro hex hsk
    have hf : (st.topics.find? (fun t => t.id == id)).isSome := by
      rw [List.find?_isSome]
      obtain ⟨t, ht, h⟩ := hex
      exact ⟨t, ht, by simpa using h⟩
    obtain ⟨t0, hf⟩ := Option.isSome_iff_exists.mp hf
    have ha : st.skills.any (fun s => s.topic_id == some id) = true := by
      rw [List.any_eq_true]
      obtain ⟨s, hs, h⟩ := hsk
      exact ⟨s, hs, by simpa using h⟩
    simp [delete_topic, hf, ha]
  · intro hex hsk htp
    have hf : (st.topics.find? (fun t => t.id == id)).isSome := by
      rw [List.find?_isSome]
      obtain ⟨t, ht, h⟩ := hex
      exact ⟨t, ht, by simpa using h⟩
    obtain ⟨t0, hf⟩ := Option.isSome_iff_exists.mp hf
    have ha : st.skills.any (fun s => s.topic_id == some id) = false := by
      rw [List.any_eq_false]
      intro s hs
      simp only [beq_iff_eq]
      exact fun h => hsk ⟨s, hs, h⟩
    have hb : st.topics.any (fun t => t.parent_topic_id == some id) = true := by
      rw [List.any_eq_true]
      obtain ⟨t, ht, h⟩ := htp
      exact ⟨t, ht, by simpa using h⟩
    simp [delete_topic, hf, ha, hb]
  · intro hex hsk htp
    have hf : (st.topics.find? (fun t => t.id == id)).isSome := by
      rw [List.find?_isSome]
      obtain ⟨t, ht, h⟩ := hex
      exact ⟨t, ht, by simpa using h⟩
    obtain ⟨t0, hf⟩ := Option.isSome_iff_exists.mp hf
    have ha : st.skills.any (fun s => s.topic_id == some id) = false := by
      rw [List.any_eq_false]
      intro s hs
      simp only [beq_iff_eq]
      exact fun h => hsk ⟨s, hs, h⟩
    have hb : st.topics.any (fun t => t.parent_topic_id == some id) = false := by
      rw [List.any_eq_false]
      intro t ht
      simp only [beq_iff_eq]
      exact fun h => htp ⟨t, ht, h⟩
    simp [delete_topic, hf, ha, hb]

/-- C2 witness: all four branches at concrete stores.  In the second one
both a skill and a child topic depend on topic 1, and the skill message is
the one reported. -/
theorem C2_delete_topic_spec_witness :
    delete_topic ⟨[⟨1, "a", none, none⟩], []⟩ 5 = (.err 404 "Topic not found",
      ⟨[⟨1, "a", none, none⟩], []⟩) ∧
    delete_topic ⟨[⟨1, "a", none, none⟩, ⟨2, "b", none, some 1⟩], [⟨1, "s", some 1, "d"⟩]⟩ 1 =
      (.err 409 "The topic has dependent skills, cannot delete the topic",
        ⟨[⟨1, "a", none, none⟩, ⟨2, "b", none, some 1⟩], [⟨1, "s", some 1, "d"⟩]⟩) ∧
    delete_topic ⟨[⟨1, "a", none, none⟩, ⟨2, "b", none, some 1⟩], []⟩ 1 =
      (.err 409 "The topic has dependent topics, cannot delete the topic",
        ⟨[⟨1, "a", none, none⟩, ⟨2, "b", none, some 1⟩], []⟩) ∧
    delete_topic ⟨[⟨1, "a", none, none⟩, ⟨2, "b", none, some 1⟩], []⟩ 2 =
      (.ok 204 (), ⟨[⟨1, "a", none, none⟩], []⟩) :=
  ⟨(C2_delete_topic_spec ⟨[⟨1, "a", none, none⟩], []⟩ 5).1 (by decide),
   (C2_delete_topic_spec ⟨[⟨1, "a", none, none⟩, ⟨2, "b", none, some 1⟩],
      [⟨1, "s", some 1, "d"⟩]⟩ 1).2.1 (by decide) (by decide),
   (C2_delete_topic_spec ⟨[⟨1, "a", none, none⟩, ⟨2, "b", none, some 1⟩], []⟩ 1).2.2.1
     (by decide) (by decide) (by decide),
   (C2_delete_topic_spec ⟨[⟨1, "a", none, none⟩, ⟨2, "b", none, some 1⟩], []⟩ 2).2.2.2
     (by decide) (by decide) (by decide)⟩

/-- C7: deleting a topic that exists while no skill and no topic depends
on it answers 204, and a subsequent `GET /topics/<id>` on the resulting
state answers 404. -/
theorem C7_delete_then_get (st : AppState) (id : Nat)
    (hex : ∃ t ∈ st.topics, t.id = id)
    (hsk : ¬ ∃ s ∈ st.skills, s.topic_id = some id)
    (htp : ¬ ∃ t ∈ st.topics, t.parent_topic_id = some id) :
    (delete_topic st id).1 = .ok 204 () ∧
    get_topic_by_id (delete_topic st id).2 id = .err 404 "Topic not found" := by
  have hf : (st.topics.find? (fun t => t.id == id)).isSome := by
    rw [List.find?_isSome]
    obtain ⟨t, ht, h⟩ := hex
    exact ⟨t, ht, by simpa using h⟩
  obtain ⟨t0, hf⟩ := Option.isSome_iff_exists.mp hf
  have ha : st.skills.any (fun s => s.topic_id == some id) = false := by
    rw [List.any_eq_false]
    intro s hs
    simp only [beq_iff_eq]
    exact fun h => hsk ⟨s, hs, h⟩
  have hb : st.topics.any (fun t => t.parent_topic_id == some id) = false := by
    rw [List.any_eq_false]
    intro t ht
    simp only [beq_iff_eq]
    exact fun h => htp ⟨t, ht, h⟩
  have hdel : delete_topic st id =
      (.ok 204 (), { st with topics := st.topics.filter (fun t => t.id != id) }) := by
    simp [delete_topic, hf, ha, hb]
  rw [hdel]
  refine ⟨rfl, ?_⟩
  have hnone : ((st.topics.filter (fun t => t.id != id)).find? (fun t => t.id == id)) = none := by
    rw [List.find?_eq_none]
    intro t ht
    have := (List.mem_filter.mp ht).2
    simpa using this
  simp [get_topic_by_id, findTopic, hnone]

/-- C7 witness: deleting topic 2 (no dependents) from a two-topic store
answers 204 and the follow-up read answers 404. -/
theorem C7_delete_then_get_witness :
    (delete_topic ⟨[⟨1, "a", none, none⟩, ⟨2, "b", none, some 1⟩], []⟩ 2).1 = .ok 204 () ∧
    get_topic_by_id (delete_topic ⟨[⟨1, "a", none, none⟩, ⟨2, "b", none, some 1⟩], []⟩ 2).2 2 =
      .err 404 "Topic not found" :=
  C7_delete_then_get ⟨[⟨1, "a", none, none⟩, ⟨2, "b", none, some 1⟩], []⟩ 2
    (by decide) (by decide) (by decide)

/-- C8: the list endpoints return all stored topics, respectively skills,
as a permutation of the store, sorted ascending by `name`. -/
theorem C8_lists_sorted (st : AppState) :
    (get_topics st).Perm st.topics ∧ List.Sorted topicNameLe (get_topics st) ∧
    (get_skills st).Perm st.skills ∧ List.Sorted skillNameLe (get_skills st) := by
  haveI htt : IsTrans Topic topicNameLe :=
    ⟨fun a b c => strLeAux_trans a.name.data b.name.data c.name.data⟩
  haveI hto : IsTotal Topic topicNameLe :=
    ⟨fun a b => strLeAux_total a.name.data b.name.data⟩
  haveI hst : IsTrans Skill skillNameLe :=
    ⟨fun a b c => strLeAux_trans a.name.data b.name.data c.name.data⟩
  haveI hso : IsTotal Skill skillNameLe :=
    ⟨fun a b => strLeAux_total a.name.data b.name.data⟩
  exact ⟨List.perm_insertionSort topicNameLe st.topics,
    List.sorted_insertionSort topicNameLe st.topics,
    List.perm_insertionSort skillNameLe st.skills,
    List.sorted_insertionSort skillNameLe st.skills⟩

/-- C1 counterexample: skill 1 exists with stored `topic_id = 1`, and
topic 1 exists — so falling back to the prior `topicID` and re-validating
it would succeed.  Yet a `PUT /skills/1` whose body carries
`topicID: null` does not fall back: `payload.get("topicID",
skill.topic_id)` keeps the explicit `None`, the topic lookup fails, and
the handler answers 422 `topicID not found`, leaving the state
unchanged. -/
theorem C1_counterexample :
    update_skill ⟨[⟨1, "T", none, none⟩], [⟨1, "S", some 1, "easy"⟩]⟩ 1
        (some ⟨none, some none, none⟩) =
      (.err 422 "topicID not found", ⟨[⟨1, "T", none, none⟩], [⟨1, "S", some 1, "easy"⟩]⟩) ∧
    (findTopic ⟨[⟨1, "T", none, none⟩], [⟨1, "S", some 1, "easy"⟩]⟩ (some 1)).isSome = true := by
  constructor <;> decide

/-- C1 (amended): for an existing skill, an update whose body omits
`topicID` resolves it to the prior stored `topic_id`; the handler always
re-validates the resolved id, answering 200 with the `topic_id` unchanged
when it references an existing topic and 422 `topicID not found` (state
unchanged) when it does not. -/
theorem C1_update_skill_topicID_fallback (st : AppState) (id : Nat)
    (sb : SkillPayload) (sk : Skill)
    (hfind : st.skills.find? (fun s => s.id == id) = some sk)
    (habs : sb.topicID = none) :
    ((findTopic st sk.topic_id).isSome = true →
      ∃ r, (update_skill st id (some sb)).1 = .ok 200 r ∧ r.topic_id = sk.topic_id) ∧
    ((findTopic st sk.topic_id).isSome = false →
      update_skill st id (some sb) = (.err 422 "topicID not found", st)) := by
  have hgd : pyGetD sb.topicID sk.topic_id = sk.topic_id := by simp [pyGetD, habs]
  constructor
  · intro h
    obtain ⟨x, hx⟩ := Option.isSome_iff_exists.mp h
    have hne : (findTopic st (pyGetD sb.topicID sk.topic_id)).isNone = false := by
      rw [hgd, hx]; rfl
    refine ⟨{ sk with
      name := pyStrip (pyOrStr (pyGet sb.name) sk.name),
      topic_id := pyGetD sb.topicID sk.topic_id,
      difficulty := pyStrip (pyOrStr (pyGet sb.difficulty) sk.difficulty) }, ?_, ?_⟩
    · simp [update_skill, hfind, hne]
    · simpa using hgd
  · intro h
    have hnone : findTopic st sk.topic_id = none := by
      cases hh : findTopic st sk.topic_id
      · rfl
      · rw [hh] at h; simp at h
    have hno : (findTopic st (pyGetD sb.topicID sk.topic_id)).isNone = true := by
      rw [hgd, hnone]; rfl
    simp [update_skill, hfind, hno]

/-- C1 witness: both amended branches at concrete stores — an omitted
`topicID` keeps the stored reference when its topic exists, and answers
422 when the stored reference is dangling. -/
theorem C1_update_skill_topicID_fallback_witness :
    (∃ r, (update_skill ⟨[⟨1, "T", none, none⟩], [⟨1, "S", some 1, "easy"⟩]⟩ 1
        (some ⟨some (some "S2"), none, none⟩)).1 = .ok 200 r ∧
        r.topic_id = (⟨1, "S", some 1, "easy"⟩ : Skill).topic_id) ∧
    update_skill ⟨[], [⟨1, "S", some 9, "easy"⟩]⟩ 1 (some emptySkillPayload) =
      (.err 422 "topicID not found", ⟨[], [⟨1, "S", some 9, "easy"⟩]⟩) :=
  ⟨(C1_update_skill_topicID_fallback ⟨[⟨1, "T", none, none⟩], [⟨1, "S", some 1, "easy"⟩]⟩ 1
      ⟨some (some "S2"), none, none⟩ ⟨1, "S", some 1, "easy"⟩ (by decide) rfl).1 (by decide),
   (C1_update_skill_topicID_fallback ⟨[], [⟨1, "S", some 9, "easy"⟩]⟩ 1
      emptySkillPayload ⟨1, "S", some 9, "easy"⟩ (by decide) rfl).2 (by decide)⟩

/-- C3 counterexample: creating a skill with the whitespace-only (blank
but non-empty) difficulty `" "` stores the empty string, not `"unknown"`:
`payload.get("difficulty") or "unknown"` keeps the truthy `" "`, which
then strips to `""`. -/
theorem C3_counterexample :
    (create_skill ⟨[⟨1, "T", none, none⟩], []⟩
        (some ⟨some (some "S"), some (some 1), some (some " ")⟩) 2).1 =
      .ok 201 ⟨2, "S", some 1, ""⟩ ∧ ("" : String) ≠ "unknown" := by
  constructor <;> decide

/-- C3 (amended): on a successful skill creation the stored difficulty is
`(payload difficulty or "unknown").strip()`: `"unknown"` when the field is
absent, `null`, or the empty string; otherwise the supplied string
trimmed — so a whitespace-only difficulty is stored as `""`. -/
theorem C3_create_skill_difficulty (st : AppState) (sb : SkillPayload)
    (newId : Nat) (r : Skill)
    (h : (create_skill st (some sb) newId).1 = .ok 201 r) :
    r.difficulty = pyStrip (pyOrStr (pyGet sb.difficulty) "unknown") ∧
    (pyGet sb.difficulty = none → r.difficulty = "unknown") ∧
    (pyGet sb.difficulty = some "" → r.difficulty = "unknown") ∧
    (∀ s, pyGet sb.difficulty = some s → s ≠ "" → r.difficulty = pyStrip s) := by
  have hmain : r.difficulty = pyStrip (pyOrStr (pyGet sb.difficulty) "unknown") := by
    revert h
    simp only [create_skill, Option.getD_some]
    split
    · intro h; simp at h
    · split
      · intro h; simp at h
      · split
        · intro h; simp at h
        · intro h
          simp only [RResult.ok.injEq] at h
          obtain ⟨-, h2⟩ := h
          rw [← h2]
  refine ⟨hmain, ?_, ?_, ?_⟩
  · intro hd; rw [hmain, hd]; decide
  · intro hd; rw [hmain, hd]; decide
  · intro s hd hne
    rw [hmain, hd]
    simp [pyOrStr, String.isEmpty_iff, hne]

/-- C3 witness: the amended rule at concrete inputs — absent difficulty
stores `"unknown"`, empty-string difficulty stores `"unknown"`, and the
whitespace-padded `" x "` stores `"x"`. -/
theorem C3_create_skill_difficulty_witness :
    (⟨2, "S", some 1, "unknown"⟩ : Skill).difficulty = "unknown" ∧
    (⟨3, "S", some 1, "unknown"⟩ : Skill).difficulty = "unknown" ∧
    (⟨4, "S", some 1, "x"⟩ : Skill).difficulty = pyStrip " x " :=
  ⟨(C3_create_skill_difficulty ⟨[⟨1, "T", none, none⟩], []⟩
      ⟨some (some "S"), some (some 1), none⟩ 2 ⟨2, "S", some 1, "unknown"⟩
      (by decide)).2.1 rfl,
   (C3_create_skill_difficulty ⟨[⟨1, "T", none, none⟩], []⟩
      ⟨some (some "S"), some (some 1), some (some "")⟩ 3 ⟨3, "S", some 1, "unknown"⟩
      (by decide)).2.2.1 rfl,
   (C3_create_skill_difficulty ⟨[⟨1, "T", none, none⟩], []⟩
      ⟨some (some "S"), some (some 1), some (some " x ")⟩ 4 ⟨4, "S", some 1, "x"⟩
      (by decide)).2.2.2 " x " rfl (by decide)⟩

/-- C4 counterexample: a `POST /topics` with a non-blank name and the
supplied `parentTopicID: 0` — an id no stored topic has — is not rejected:
`0` is falsy in Python, so `if parent_id:` skips the existence check and a
row with the dangling parent reference `0` is persisted with 201. -/
theorem C4_counterexample :
    create_topic ⟨[], []⟩ (some ⟨some (some "A"), none, some (some 0)⟩) 1 =
      (.ok 201 ⟨1, "A", none, some 0⟩, ⟨[⟨1, "A", none, some 0⟩], []⟩) ∧
    (findTopic ⟨[], []⟩ (some 0)).isSome = false := by
  constructor <;> decide

/-- C4 (amended): topic creation fails with 422 and an unchanged store
when the name is empty after trimming, and likewise when `parentTopicID`
is supplied as a truthy id (non-null, non-zero) that no stored topic has;
a falsy `parentTopicID` (`null` or `0`) bypasses the existence check. -/
theorem C4_create_topic_validation (st : AppState) (tb : TopicPayload) (newId : Nat) :
    (pyStrip (pyOrStr (pyGet tb.name) "") = "" →
      create_topic st (some tb) newId = (.err 422 "Field 'name' is required.", st)) ∧
    (∀ pid, pyStrip (pyOrStr (pyGet tb.name) "") ≠ "" →
      pyGet tb.parentTopicID = some pid → pid ≠ 0 →
      (¬ ∃ t ∈ st.topics, t.id = pid) →
      create_topic st (some tb) newId = (.err 422 "parentTopicID not found", st)) := by
  constructor
  · intro h
    have hb : (pyStrip (pyOrStr (pyGet tb.name) "")).isEmpty := (String.isEmpty_iff _).mpr h
    simp [create_topic, hb]
  · intro pid hname hp hpid hnotex
    have hb : (pyStrip (pyOrStr (pyGet tb.name) "")).isEmpty = false := by
      rw [Bool.eq_false_iff]
      exact fun hcon => hname ((String.isEmpty_iff _).mp hcon)
    have htr : natTruthy (pyGet tb.parentTopicID) = true := by
      simp [hp, natTruthy, hpid]
    have hfnone : findTopic st (pyGet tb.parentTopicID) = none := by
      rw [hp]
      simp only [findTopic, List.find?_eq_none]
      intro t ht
      simp only [beq_iff_eq]
      exact fun hcon => hnotex ⟨t, ht, hcon⟩
    simp [create_topic, hb, htr, hfnone]

/-- C4 witness: both amended branches at concrete inputs — a whitespace
name is rejected, and a non-zero dangling `parentTopicID` is rejected. -/
theorem C4_create_topic_validation_witness :
    create_topic ⟨[], []⟩ (some ⟨some (some "  "), none, none⟩) 1 =
      (.err 422 "Field 'name' is required.", ⟨[], []⟩) ∧
    create_topic ⟨[], []⟩ (some ⟨some (some "A"), none, some (some 7)⟩) 1 =
      (.err 422 "parentTopicID not found", ⟨[], []⟩) :=
  ⟨(C4_create_topic_validation ⟨[], []⟩ ⟨some (some "  "), none, none⟩ 1).1 (by decide),
   (C4_create_topic_validation ⟨[], []⟩ ⟨some (some "A"), none, some (some 7)⟩ 1).2 7
     (by decide) rfl (by decide) (by decide)⟩

/-- C6: for an existing topic (resp. skill), an update whose body omits
`name` stores — and returns — the `strip()` of the previously stored name:
the fallback value is re-trimmed on every successful update, even when
nothing changed. -/
theorem C6_update_omitted_name_retrims (st : AppState) (id : Nat)
    (tb : TopicPayload) (sb : SkillPayload)
    (htb : tb.name = none) (hsb : sb.name = none) :
    (∀ r t, st.topics.find? (fun t => t.id == id) = some t →
      (update_topic st id (some tb)).1 = .ok 200 r →
      r.name = pyStrip t.name ∧
      get_topic_by_id (update_topic st id (some tb)).2 id = .ok 200 r) ∧
    (∀ r s, st.skills.find? (fun s => s.id == id) = some s →
      (update_skill st id (some sb)).1 = .ok 200 r →
      r.name = pyStrip s.name ∧
      get_skill_by_id (update_skill st id (some sb)).2 id = .ok 200 r) := by
  constructor
  · intro r t hfind hok
    have hid : t.id = id := by simpa using List.find?_some hfind
    have hfs : (st.topics.find? (fun a => a.id == id)).isSome = true := by
      rw [hfind]; rfl
    revert hok
    simp only [update_topic, hfind, Option.getD_some]
    split
    · intro hok; simp at hok
    · intro hok
      simp only [RResult.ok.injEq] at hok
      obtain ⟨-, h2⟩ := hok
      constructor
      · rw [← h2]
        simp [htb, pyGet, pyOrStr]
      · rw [h2]
        have hr_id : r.id = id := by rw [← h2]; simpa using hid
        simp only [get_topic_by_id, findTopic]
        rw [find?_map_update Topic.id id r st.topics hfs hr_id]
  · intro r s hfind hok
    have hid : s.id = id := by simpa using List.find?_some hfind
    have hfs : (st.skills.find? (fun a => a.id == id)).isSome = true := by
      rw [hfind]; rfl
    revert hok
    simp only [update_skill, hfind, Option.getD_some]
    split
    · intro hok; simp at hok
    · intro hok
      simp only [RResult.ok.injEq] at hok
      obtain ⟨-, h2⟩ := hok
      constructor
      · rw [← h2]
        simp [hsb, pyGet, pyOrStr]
      · rw [h2]
        have hr_id : r.id = id := by rw [← h2]; simpa using hid
        simp only [get_skill_by_id, findSkill]
        rw [find?_map_update Skill.id id r st.skills hfs hr_id]

/-- C6 witness: updating topic 1 (stored name `" A "`) and skill 1 (stored
name `" B "`) with an empty body stores the stripped names `"A"` and
`"B"`. -/
theorem C6_update_omitted_name_retrims_witness :
    ((⟨1, "A", none, none⟩ : Topic).name = pyStrip " A " ∧
      get_topic_by_id
        (update_topic ⟨[⟨1, " A ", none, none⟩], []⟩ 1 (some emptyTopicPayload)).2 1 =
        .ok 200 ⟨1, "A", none, none⟩) ∧
    ((⟨1, "B", some 1, "d"⟩ : Skill).name = pyStrip " B " ∧
      get_skill_by_id
        (update_skill ⟨[⟨1, "T", none, none⟩], [⟨1, " B ", some 1, "d"⟩]⟩ 1
          (some emptySkillPayload)).2 1 =
        .ok 200 ⟨1, "B", some 1, "d"⟩) :=
  ⟨(C6_update_omitted_name_retrims ⟨[⟨1, " A ", none, none⟩], []⟩ 1
      emptyTopicPayload emptySkillPayload rfl rfl).1
      ⟨1, "A", none, none⟩ ⟨1, " A ", none, none⟩ (by decide) (by decide),
   (C6_update_omitted_name_retrims ⟨[⟨1, "T", none, none⟩], [⟨1, " B ", some 1, "d"⟩]⟩ 1
      emptyTopicPayload emptySkillPayload rfl rfl).2
      ⟨1, "B", some 1, "d"⟩ ⟨1, " B ", some 1, "d"⟩ (by decide) (by decide)⟩

/-- C9: for an existing topic, a `PUT /topics/<id>` whose body carries
`parentTopicID: null` succeeds with 200, stores `parent_topic_id = null`
(detaching the topic from its parent), and skips the parent-existence
check — the resolved `None` is falsy, so `if parent_id:` never runs the
lookup. -/
theorem C9_update_topic_null_parent (st : AppState) (id : Nat)
    (tb : TopicPayload) (t : Topic)
    (hfind : st.topics.find? (fun t => t.id == id) = some t)
    (hp : tb.parentTopicID = some none) :
    ∃ r, (update_topic st id (some tb)).1 = .ok 200 r ∧ r.parent_topic_id = none ∧
      get_topic_by_id (update_topic st id (some tb)).2 id = .ok 200 r := by
  have hgd : pyGetD tb.parentTopicID t.parent_topic_id = none := by simp [pyGetD, hp]
  have hid : t.id = id := by simpa using List.find?_some hfind
  have hfs : (st.topics.find? (fun a => a.id == id)).isSome = true := by
    rw [hfind]; rfl
  refine ⟨{ t with
    name := pyStrip (pyOrStr (pyGet tb.name) t.name),
    description := pyGetD tb.description t.description,
    parent_topic_id := pyGetD tb.parentTopicID t.parent_topic_id }, ?_, ?_, ?_⟩
  · simp [update_topic, hfind, hgd, natTruthy]
  · simpa using hgd
  · simp only [update_topic, hfind, Option.getD_some, hgd]
    rw [if_neg (by simp [natTruthy])]
    simp only [get_topic_by_id, findTopic]
    rw [find?_map_update Topic.id id _ st.topics hfs (by simpa using hid)]

/-- C9 witness: topic 1 has the (dangling) parent 5; a body with
`parentTopicID: null` still succeeds and detaches it. -/
theorem C9_update_topic_null_parent_witness :
    ∃ r, (update_topic ⟨[⟨1, "T", none, some 5⟩], []⟩ 1
        (some ⟨none, none, some none⟩)).1 = .ok 200 r ∧
      r.parent_topic_id = none ∧
      get_topic_by_id (update_topic ⟨[⟨1, "T", none, some 5⟩], []⟩ 1
        (some ⟨none, none, some none⟩)).2 1 = .ok 200 r :=
  C9_update_topic_null_parent ⟨[⟨1, "T", none, some 5⟩], []⟩ 1
    ⟨none, none, some none⟩ ⟨1, "T", none, some 5⟩ (by decide) rfl
